import Mathlib

/-!
Shallow embedding of the weather dashboard's fetch-and-merge routine
(`src/src/WeatherApp.tsx`).  Upstream JSON payloads are modelled as
structures whose fields are `Option`-typed: `none` plays the role of the
JavaScript `undefined` that results from reading an absent property.
Property access on an `undefined` object and calling `.map` on an
`undefined` array throw a `TypeError` in JavaScript; both are modelled by
`Except.error`.  Reading an array element out of range yields `undefined`
(not a throw), modelled by `Option` results of `jsIndex`.  Numbers are
modelled as `Rat`: the merge only moves them around, so no floating-point
behaviour is observable.
-/

namespace OpenCloudV2

/-- Body of the current-weather response's `current_weather` object. -/
structure CurrentWeatherInner where
  temperature : Option Rat
  windspeed : Option Rat
deriving DecidableEq, Repr

/-- Parsed body of request A (current weather). -/
structure CurrentWeatherResp where
  current_weather : Option CurrentWeatherInner
deriving DecidableEq, Repr

/-- The `daily` block of the forecast response. -/
structure DailyBlock where
  time : Option (List String)
  temperature_2m_max : Option (List Rat)
  temperature_2m_min : Option (List Rat)
  sunrise : Option (List String)
  sunset : Option (List String)
deriving DecidableEq, Repr

/-- The `hourly` block of the forecast response. -/
structure HourlyBlock where
  time : Option (List String)
  temperature_2m : Option (List Rat)
deriving DecidableEq, Repr

/-- Parsed body of request B (forecast). -/
structure ForecastResp where
  daily : Option DailyBlock
  hourly : Option HourlyBlock
deriving DecidableEq, Repr

/-- Parsed body of request C (reverse geocode). -/
structure GeocodeResp where
  city : Option String
  countryName : Option String
deriving DecidableEq, Repr

/-- One entry of `WeatherData.forecast.daily`.  The temperature fields can
hold JavaScript `undefined` (modelled `none`) when the upstream numeric
array is shorter than `daily.time`. -/
structure DailyEntry where
  date : String
  temperatureMax : Option Rat
  temperatureMin : Option Rat
  condition : String
deriving DecidableEq, Repr

/-- One entry of `WeatherData.forecast.hourly`. -/
structure HourlyEntry where
  time : String
  temperature : Option Rat
  condition : String
deriving DecidableEq, Repr

/-- The `current` block of the merged snapshot. -/
structure CurrentConditions where
  temperature : Option Rat
  windSpeed : Option Rat
  humidity : Rat
  uvIndex : Rat
  pressure : Rat
  condition : String
deriving DecidableEq, Repr

/-- The `forecast` block of the merged snapshot. -/
structure ForecastBlock where
  daily : List DailyEntry
  hourly : List HourlyEntry
deriving DecidableEq, Repr

/-- The `location` block of the merged snapshot. -/
structure LocationBlock where
  name : String
  country : String
deriving DecidableEq, Repr

/-- The `astronomy` block of the merged snapshot.  `sunrise`/`sunset` are
`daily.sunrise[0]` / `daily.sunset[0]`, hence `undefined` (`none`) when
those arrays are empty. -/
structure AstronomyBlock where
  sunrise : Option String
  sunset : Option String
  dawn : String
  dusk : String
deriving DecidableEq, Repr

/-- The merged view model (`interface WeatherData` in the source). -/
structure WeatherData where
  current : CurrentConditions
  forecast : ForecastBlock
  location : LocationBlock
  astronomy : AstronomyBlock
deriving DecidableEq, Repr

/-- JavaScript `arr[i]` where `arr` may itself be `undefined`: indexing
`undefined` throws a `TypeError`; indexing past the end of a real array
yields `undefined`. -/
def jsIndex (arr : Option (List α)) (i : Nat) : Except String (Option α) :=
  match arr with
  | none => Except.error "TypeError: cannot read properties of undefined"
  | some l => Except.ok l[i]?

/-- JavaScript `v || dflt` for a string-or-undefined `v`: both `undefined`
and the empty string are falsy. -/
def jsOr (v : Option String) (dflt : String) : String :=
  match v with
  | none => dflt
  | some s => if s = "" then dflt else s

/-- `Array.prototype.map` with an index-aware callback that may throw:
left-to-right, stops at the first error. -/
def mapIdxE (f : Nat → α → Except ε β) : Nat → List α → Except ε (List β)
  | _, [] => Except.ok []
  | i, a :: as =>
    match f i a with
    | Except.error e => Except.error e
    | Except.ok b =>
      match mapIdxE f (i + 1) as with
      | Except.error e => Except.error e
      | Except.ok bs => Except.ok (b :: bs)

/-- The callback of `forecastData.daily.time.map`: builds one daily entry,
reading `temperature_2m_max[index]` and `temperature_2m_min[index]`. -/
def dailyCallback (d : DailyBlock) (i : Nat) (t : String) :
    Except String DailyEntry :=
  match jsIndex d.temperature_2m_max i with
  | Except.error e => Except.error e
  | Except.ok tmax =>
    match jsIndex d.temperature_2m_min i with
    | Except.error e => Except.error e
    | Except.ok tmin =>
      Except.ok { date := t, temperatureMax := tmax, temperatureMin := tmin,
                  condition := "Clear" }

/-- The callback of `forecastData.hourly.time.map`: builds one hourly entry,
reading `temperature_2m[index]`. -/
def hourlyCallback (hb : HourlyBlock) (i : Nat) (t : String) :
    Except String HourlyEntry :=
  match jsIndex hb.temperature_2m i with
  | Except.error e => Except.error e
  | Except.ok temp =>
    Except.ok { time := t, temperature := temp, condition := "Clear" }

/-- The merge step building `mappedWeatherData` (source lines 64-96).
Field initialisers are evaluated in source order; the first `TypeError`
aborts the whole merge (it is caught by the surrounding `try`). -/
def mappedWeatherData (cw : CurrentWeatherResp) (fd : ForecastResp)
    (gc : GeocodeResp) : Except String WeatherData :=
  match cw.current_weather with
  | none => Except.error "TypeError: current_weather is undefined"
  | some inner =>
    match fd.daily with
    | none => Except.error "TypeError: daily is undefined"
    | some d =>
      match d.time with
      | none => Except.error "TypeError: daily.time is undefined"
      | some ts =>
        match mapIdxE (dailyCallback d) 0 ts with
        | Except.error e => Except.error e
        | Except.ok des =>
          match fd.hourly with
          | none => Except.error "TypeError: hourly is undefined"
          | some hb =>
            match hb.time with
            | none => Except.error "TypeError: hourly.time is undefined"
            | some hs =>
              match mapIdxE (hourlyCallback hb) 0 hs with
              | Except.error e => Except.error e
              | Except.ok hes =>
                match d.sunrise with
                | none => Except.error "TypeError: sunrise is undefined"
                | some sr =>
                  match d.sunset with
                  | none => Except.error "TypeError: sunset is undefined"
                  | some ss =>
                    Except.ok
                      { current :=
                          { temperature := inner.temperature,
                            windSpeed := inner.windspeed,
                            humidity := 0, uvIndex := 0, pressure := 0,
                            condition := "Clear" },
                        forecast := { daily := des, hourly := hes },
                        location :=
                          { name := jsOr gc.city "Unknown",
                            country := jsOr gc.countryName "Unknown" },
                        astronomy :=
                          { sunrise := sr[0]?, sunset := ss[0]?,
                            dawn := "", dusk := "" } }

/-- Result of one `fetch` call: either the promise rejects at transport
level, or a response arrives with an `ok` flag and a parsed body. -/
inductive Transport (α : Type) where
  | netError : Transport α
  | response (ok : Bool) (body : α) : Transport α
deriving DecidableEq, Repr

/-- The ambient world the effect runs against: one transport result per
endpooint for this session's coordinate, plus data the merge must not
consult (wall clock, entropy source). -/
structure Env where
  currentWeatherCall : Transport CurrentWeatherResp
  forecastCall : Transport ForecastResp
  geocodeCall : Transport GeocodeResp
  now : Nat
  entropy : Nat
deriving DecidableEq, Repr

/-- A record of one outbound network request (endpoint plus coordinate). -/
inductive NetCall where
  | currentWeather (lat lon : Rat) : NetCall
  | forecast (lat lon : Rat) : NetCall
  | geocode (lat lon : Rat) : NetCall
deriving DecidableEq, Repr

/-- Component state after the effect has finished (the three `useState`
slots). -/
structure AppState where
  weatherData : Option WeatherData
  error : Option String
  loading : Bool
deriving DecidableEq, Repr

/-- State written by the `catch` branch: `setError('Failed to fetch weather
data'); setLoading(false)`; `weatherData` keeps its initial `null`. -/
def fetchFailState : AppState :=
  { weatherData := none, error := some "Failed to fetch weather data",
    loading := false }

/-- The body of the `try` block: three sequential awaited fetches, each
non-ok status throwing before the next call is issued, then the merge.
Also records which requests were actually issued. -/
def runFetch (lat lon : Rat) (env : Env) :
    Except String WeatherData × List NetCall :=
  match env.currentWeatherCall with
  | Transport.netError =>
    (Except.error "network error", [NetCall.currentWeather lat lon])
  | Transport.response okA bodyA =>
    if okA then
      match env.forecastCall with
      | Transport.netError =>
        (Except.error "network error",
         [NetCall.currentWeather lat lon, NetCall.forecast lat lon])
      | Transport.response okB bodyB =>
        if okB then
          match env.geocodeCall with
          | Transport.netError =>
            (Except.error "network error",
             [NetCall.currentWeather lat lon, NetCall.forecast lat lon,
              NetCall.geocode lat lon])
          | Transport.response okC bodyC =>
            if okC then
              (mappedWeatherData bodyA bodyB bodyC,
               [NetCall.currentWeather lat lon, NetCall.forecast lat lon,
                NetCall.geocode lat lon])
            else
              (Except.error "Failed to fetch location data",
               [NetCall.currentWeather lat lon, NetCall.forecast lat lon,
                NetCall.geocode lat lon])
        else
          (Except.error "Failed to fetch forecast data",
           [NetCall.currentWeather lat lon, NetCall.forecast lat lon])
    else
      (Except.error "Failed to fetch current weather data",
       [NetCall.currentWeather lat lon])

/-- `fetchWeatherData` with its surrounding `try`/`catch`: on success the
snapshot is stored, on any thrown error the single user-facing message is
set and no snapshot is stored. -/
def fetchWeatherData (lat lon : Rat) (env : Env) : AppState × List NetCall :=
  match runFetch lat lon env with
  | (Except.ok w, calls) =>
    ({ weatherData := some w, error := none, loading := false }, calls)
  | (Except.error _, calls) => (fetchFailState, calls)

/-- Outcome of `navigator.geolocation.getCurrentPosition`. -/
inductive GeoOutcome where
  | position (lat lon : Rat) : GeoOutcome
  | failure : GeoOutcome
deriving DecidableEq, Repr

/-- Whether the host exposes a positioning capability, and if so what it
yields. -/
inductive Geolocation where
  | unavailable : Geolocation
  | available (fix : GeoOutcome) : Geolocation
deriving DecidableEq, Repr

/-- `getLocation` (source lines 107-124): with no geolocation capability it
sets the capability-unavailable message and never fetches; with a failing
fix it sets the location-failure message; with a position it runs
`fetchWeatherData`. -/
def getLocation (geo : Geolocation) (env : Env) : AppState × List NetCall :=
  match geo with
  | Geolocation.unavailable =>
    ({ weatherData := none,
       error := some "Geolocation is not supported by this browser",
       loading := false }, [])
  | Geolocation.available GeoOutcome.failure =>
    ({ weatherData := none, error := some "Failed to get location",
       loading := false }, [])
  | Geolocation.available (GeoOutcome.position lat lon) =>
    fetchWeatherData lat lon env

/-! ### Helper lemmas about the map combinator -/

/-- A successful `mapIdxE` preserves the length of its input. -/
theorem mapIdxE_ok_length {f : Nat → α → Except ε β} :
    ∀ {n : Nat} {l : List α} {out : List β},
      mapIdxE f n l = Except.ok out → out.length = l.length := by
  intro n l
  induction l generalizing n with
  | nil =>
    intro out h
    simp [mapIdxE] at h
    simp [← h]
  | cons a as ih =>
    intro out h
    unfold mapIdxE at h
    cases hfa : f n a with
    | error e => rw [hfa] at h; exact Except.noConfusion h
    | ok b =>
      rw [hfa] at h
      cases hrest : mapIdxE f (n + 1) as with
      | error e => rw [hrest] at h; exact Except.noConfusion h
      | ok bs =>
        rw [hrest] at h
        cases h
        simp [ih hrest]

/-- Pointwise characterization of a successful `mapIdxE`: output entry `i`
is the callback applied to input entry `i` with index `n + i`. -/
theorem mapIdxE_ok_getElem {f : Nat → α → Except ε β} :
    ∀ {n : Nat} {l : List α} {out : List β},
      mapIdxE f n l = Except.ok out →
      ∀ i, (hi : i < l.length) →
        ∃ b, f (n + i) (l.get ⟨i, hi⟩) = Except.ok b ∧ out[i]? = some b := by
  intro n l
  induction l generalizing n with
  | nil =>
    intro out _ i hi
    exact absurd hi (by simp)
  | cons a as ih =>
    intro out h i hi
    unfold mapIdxE at h
    cases hfa : f n a with
    | error e => rw [hfa] at h; exact Except.noConfusion h
    | ok b =>
      rw [hfa] at h
      cases hrest : mapIdxE f (n + 1) as with
      | error e => rw [hrest] at h; exact Except.noConfusion h
      | ok bs =>
        rw [hrest] at h
        cases h
        cases i with
        | zero => exact ⟨b, by simpa using hfa, by simp⟩
        | succ j =>
          obtain ⟨c, hc, hget⟩ := ih hrest j (by simpa using hi)
          refine ⟨c, ?_, by simpa using hget⟩
          have : n + 1 + j = n + (j + 1) := by omega
          rw [← this]
          simpa using hc

/-- If the callback never throws, `mapIdxE` succeeds on every list. -/
theorem mapIdxE_total {f : Nat → α → Except ε β}
    (hf : ∀ i a, ∃ b, f i a = Except.ok b) :
    ∀ (n : Nat) (l : List α), ∃ out, mapIdxE f n l = Except.ok out := by
  intro n l
  induction l generalizing n with
  | nil => exact ⟨[], rfl⟩
  | cons a as ih =>
    obtain ⟨b, hb⟩ := hf n a
    obtain ⟨bs, hbs⟩ := ih (n + 1)
    exact ⟨b :: bs, by simp [mapIdxE, hb, hbs]⟩

/-- Every member of a successful `mapIdxE` output is a successful callback
result. -/
theorem mapIdxE_ok_mem {f : Nat → α → Except ε β} {P : β → Prop}
    (hP : ∀ i a b, f i a = Except.ok b → P b) :
    ∀ {n : Nat} {l : List α} {out : List β},
      mapIdxE f n l = Except.ok out → ∀ b ∈ out, P b := by
  intro n l
  induction l generalizing n with
  | nil =>
    intro out h b hb
    simp [mapIdxE] at h
    subst h
    exact absurd hb (by simp)
  | cons a as ih =>
    intro out h b hb
    unfold mapIdxE at h
    cases hfa : f n a with
    | error e => rw [hfa] at h; exact Except.noConfusion h
    | ok c =>
      rw [hfa] at h
      cases hrest : mapIdxE f (n + 1) as with
      | error e => rw [hrest] at h; exact Except.noConfusion h
      | ok bs =>
        rw [hrest] at h
        cases h
        rcases List.mem_cons.mp hb with hb | hb
        · exact hb ▸ hP n a c hfa
        · exact ih hrest b hb

/-- A successful `dailyCallback` forces both temperature arrays to be
present and produces exactly the entry read off at index `i`. -/
theorem dailyCallback_ok_elim {d : DailyBlock} {i : Nat} {t : String}
    {en : DailyEntry} (h : dailyCallback d i t = Except.ok en) :
    ∃ maxs mins, d.temperature_2m_max = some maxs ∧
      d.temperature_2m_min = some mins ∧
      en = { date := t, temperatureMax := maxs[i]?,
             temperatureMin := mins[i]?, condition := "Clear" } := by
  unfold dailyCallback jsIndex at h
  cases hmax : d.temperature_2m_max with
  | none => rw [hmax] at h; exact Except.noConfusion h
  | some maxs =>
    rw [hmax] at h
    cases hmin : d.temperature_2m_min with
    | none => rw [hmin] at h; exact Except.noConfusion h
    | some mins =>
      rw [hmin] at h
      cases h
      exact ⟨maxs, mins, rfl, rfl, rfl⟩

/-- A successful `hourlyCallback` forces the temperature array to be
present and produces exactly the entry read off at index `i`. -/
theorem hourlyCallback_ok_elim {hb : HourlyBlock} {i : Nat} {t : String}
    {en : HourlyEntry} (h : hourlyCallback hb i t = Except.ok en) :
    ∃ temps, hb.temperature_2m = some temps ∧
      en = { time := t, temperature := temps[i]?, condition := "Clear" } := by
  unfold hourlyCallback jsIndex at h
  cases htemp : hb.temperature_2m with
  | none => rw [htemp] at h; exact Except.noConfusion h
  | some temps =>
    rw [htemp] at h
    cases h
    exact ⟨temps, rfl, rfl⟩

/-- Full characterization of a successful merge: every guard along the way
must have passed, and the snapshot is exactly the record built from the
three bodies. -/
theorem mappedWeatherData_ok_iff (cw : CurrentWeatherResp) (fd : ForecastResp)
    (gc : GeocodeResp) (w : WeatherData) :
    mappedWeatherData cw fd gc = Except.ok w ↔
    ∃ inner d ts des hb hs hes sr ss,
      cw.current_weather = some inner ∧
      fd.daily = some d ∧ d.time = some ts ∧
      mapIdxE (dailyCallback d) 0 ts = Except.ok des ∧
      fd.hourly = some hb ∧ hb.time = some hs ∧
      mapIdxE (hourlyCallback hb) 0 hs = Except.ok hes ∧
      d.sunrise = some sr ∧ d.sunset = some ss ∧
      w = { current := { temperature := inner.temperature,
                         windSpeed := inner.windspeed,
                         humidity := 0, uvIndex := 0, pressure := 0,
                         condition := "Clear" },
            forecast := { daily := des, hourly := hes },
            location := { name := jsOr gc.city "Unknown",
                          country := jsOr gc.countryName "Unknown" },
            astronomy := { sunrise := sr[0]?, sunset := ss[0]?,
                           dawn := "", dusk := "" } } := by
  constructor
  · intro hok
    cases hcw : cw.current_weather with
    | none => simp [mappedWeatherData, hcw] at hok
    | some inner =>
    cases hd : fd.daily with
    | none => simp [mappedWeatherData, hcw, hd] at hok
    | some d =>
    cases ht : d.time with
    | none => simp [mappedWeatherData, hcw, hd, ht] at hok
    | some ts =>
    cases hmd : mapIdxE (dailyCallback d) 0 ts with
    | error e => simp [mappedWeatherData, hcw, hd, ht, hmd] at hok
    | ok des =>
    cases hh : fd.hourly with
    | none => simp [mappedWeatherData, hcw, hd, ht, hmd, hh] at hok
    | some hb =>
    cases hht : hb.time with
    | none => simp [mappedWeatherData, hcw, hd, ht, hmd, hh, hht] at hok
    | some hs =>
    cases hmh : mapIdxE (hourlyCallback hb) 0 hs with
    | error e => simp [mappedWeatherData, hcw, hd, ht, hmd, hh, hht, hmh] at hok
    | ok hes =>
    cases hsr : d.sunrise with
    | none => simp [mappedWeatherData, hcw, hd, ht, hmd, hh, hht, hmh, hsr] at hok
    | some sr =>
    cases hss : d.sunset with
    | none =>
      simp [mappedWeatherData, hcw, hd, ht, hmd, hh, hht, hmh, hsr, hss] at hok
    | some ss =>
    refine ⟨inner, d, ts, des, hb, hs, hes, sr, ss, rfl, rfl, ht, hmd, rfl, hht,
      hmh, hsr, hss, ?_⟩
    simp only [mappedWeatherData, hcw, hd, ht, hmd, hh, hht, hmh, hsr, hss,
      Except.ok.injEq] at hok
    exact hok.symm
  · rintro ⟨inner, d, ts, des, hb, hs, hes, sr, ss, hcw, hd, ht, hmd, hh, hht,
      hmh, hsr, hss, hw⟩
    subst hw
    simp [mappedWeatherData, hcw, hd, ht, hmd, hh, hht, hmh, hsr, hss]

/-! ### Concrete payloads (the spec's Berlin scenario, reused as witness
inputs) -/

/-- `current_weather` object of the Berlin scenario: temperature 18.4,
windspeed 3.1. -/
def c8Inner : CurrentWeatherInner :=
  { temperature := some (mkRat 92 5), windspeed := some (mkRat 31 10) }

/-- Current-weather body of the Berlin scenario. -/
def c8Current : CurrentWeatherResp := { current_weather := some c8Inner }

/-- `daily` block of the Berlin scenario's forecast body. -/
def c8Daily : DailyBlock :=
  { time := some ["2024-06-01", "2024-06-02"],
    temperature_2m_max := some [22, 24],
    temperature_2m_min := some [14, 15],
    sunrise := some ["2024-06-01T04:45"],
    sunset := some ["2024-06-01T21:10"] }

/-- `hourly` block of the Berlin scenario's forecast body (present but
empty, as the scenario constrains only the daily fields). -/
def c8Hourly : HourlyBlock := { time := some [], temperature_2m := some [] }

/-- Forecast body of the Berlin scenario. -/
def c8Forecast : ForecastResp :=
  { daily := some c8Daily, hourly := some c8Hourly }

/-- Geocode body of the Berlin scenario. -/
def c8Geocode : GeocodeResp :=
  { city := some "Berlin", countryName := some "Germany" }

/-- Environment in which all three calls succeed with the Berlin bodies. -/
def c8Env : Env :=
  { currentWeatherCall := Transport.response true c8Current,
    forecastCall := Transport.response true c8Forecast,
    geocodeCall := Transport.response true c8Geocode,
    now := 0, entropy := 0 }

/-- The same responses observed at a different wall-clock time and with a
different entropy read. -/
def c8EnvLater : Env :=
  { currentWeatherCall := Transport.response true c8Current,
    forecastCall := Transport.response true c8Forecast,
    geocodeCall := Transport.response true c8Geocode,
    now := 987654, entropy := 42 }

/-! ### The claims -/

/-- Claim C5: if the host positioning capability is absent, the session
terminates in the capability-unavailable error state ("Geolocation is not
supported by this browser") and none of the three network calls is ever
attempted. -/
theorem c5_capability_unavailable_no_calls (env : Env) :
    getLocation Geolocation.unavailable env =
      ({ weatherData := none,
         error := some "Geolocation is not supported by this browser",
         loading := false }, ([] : List NetCall)) := rfl

/-- Claim C8: on coordinate (52.52, 13.405) with the Berlin scenario's three
response bodies, the produced snapshot has current.temperature = 18.4,
location.name = "Berlin", astronomy.sunrise = "2024-06-01T04:45" and
forecast.daily[1].temperatureMax = 24. -/
theorem c8_berlin_scenario :
    ((getLocation
        (Geolocation.available
          (GeoOutcome.position (mkRat 1313 25) (mkRat 2681 200)))
        c8Env).1.weatherData.map
      (fun w =>
        (w.current.temperature, w.location.name, w.astronomy.sunrise,
         (w.forecast.daily[1]?).map DailyEntry.temperatureMax)))
    = some (some (mkRat 92 5), "Berlin", some "2024-06-01T04:45",
            some (some 24)) := rfl

/-- Claim C9: the aggregation is deterministic — two runs at the same
coordinate whose environments agree on all three upstream responses produce
identical results, whatever the clock or entropy source holds. -/
theorem c9_merge_deterministic (lat lon : Rat) (e1 e2 : Env)
    (hA : e1.currentWeatherCall = e2.currentWeatherCall)
    (hB : e1.forecastCall = e2.forecastCall)
    (hC : e1.geocodeCall = e2.geocodeCall) :
    fetchWeatherData lat lon e1 = fetchWeatherData lat lon e2 := by
  obtain ⟨a1, b1, g1, n1, r1⟩ := e1
  obtain ⟨a2, b2, g2, n2, r2⟩ := e2
  have hA2 : a1 = a2 := hA
  have hB2 : b1 = b2 := hB
  have hG2 : g1 = g2 := hC
  subst hA2; subst hB2; subst hG2
  rfl

/-- Witness for C9: the Berlin environment and its later-clock variant
yield identical results. -/
theorem c9_merge_deterministic_witness :
    fetchWeatherData (mkRat 1313 25) (mkRat 2681 200) c8Env =
      fetchWeatherData (mkRat 1313 25) (mkRat 2681 200) c8EnvLater :=
  c9_merge_deterministic (mkRat 1313 25) (mkRat 2681 200) c8Env c8EnvLater
    rfl rfl rfl

/-- The snapshot the merge produces on the Berlin scenario. -/
def c8Snapshot : WeatherData :=
  { current := { temperature := some (mkRat 92 5),
                 windSpeed := some (mkRat 31 10),
                 humidity := 0, uvIndex := 0, pressure := 0,
                 condition := "Clear" },
    forecast :=
      { daily :=
          [ { date := "2024-06-01", temperatureMax := some 22,
              temperatureMin := some 14, condition := "Clear" },
            { date := "2024-06-02", temperatureMax := some 24,
              temperatureMin := some 15, condition := "Clear" } ],
        hourly := [] },
    location := { name := "Berlin", country := "Germany" },
    astronomy := { sunrise := some "2024-06-01T04:45",
                   sunset := some "2024-06-01T21:10",
                   dawn := "", dusk := "" } }

/-- Claim C1: when the forecast response carries `daily.time` and
`hourly.time`, a successful merge yields `forecast.daily` and
`forecast.hourly` of exactly the same lengths, with entry `i` equal to the
map callback applied at index `i` of the upstream arrays — no reordering,
filtering or deduplication. -/
theorem c1_forecast_arrays_preserved (cw : CurrentWeatherResp)
    (fd : ForecastResp) (gc : GeocodeResp) (w : WeatherData)
    (d : DailyBlock) (ts : List String) (hb : HourlyBlock) (hs : List String)
    (hd : fd.daily = some d) (ht : d.time = some ts)
    (hh : fd.hourly = some hb) (hht : hb.time = some hs)
    (hok : mappedWeatherData cw fd gc = Except.ok w) :
    w.forecast.daily.length = ts.length ∧
    w.forecast.hourly.length = hs.length ∧
    (∀ i (hi : i < ts.length),
      ∃ en, dailyCallback d i (ts.get ⟨i, hi⟩) = Except.ok en ∧
        w.forecast.daily[i]? = some en) ∧
    (∀ i (hi : i < hs.length),
      ∃ en, hourlyCallback hb i (hs.get ⟨i, hi⟩) = Except.ok en ∧
        w.forecast.hourly[i]? = some en) := by
  obtain ⟨inner, d2, ts2, des, hb2, hs2, hes, sr, ss, hcw, hd2, ht2, hmd, hh2,
    hht2, hmh, hsr, hss, hw⟩ := (mappedWeatherData_ok_iff cw fd gc w).mp hok
  rw [hd] at hd2; injection hd2 with hde; subst hde
  rw [ht] at ht2; injection ht2 with hte; subst hte
  rw [hh] at hh2; injection hh2 with hhe; subst hhe
  rw [hht] at hht2; injection hht2 with hhte; subst hhte
  subst hw
  refine ⟨mapIdxE_ok_length hmd, mapIdxE_ok_length hmh, ?_, ?_⟩
  · intro i hi
    obtain ⟨en, hen, hget⟩ := mapIdxE_ok_getElem hmd i hi
    exact ⟨en, by simpa using hen, hget⟩
  · intro i hi
    obtain ⟨en, hen, hget⟩ := mapIdxE_ok_getElem hmh i hi
    exact ⟨en, by simpa using hen, hget⟩

/-- Witness for C1 on the Berlin scenario: two daily entries in, two out;
zero hourly entries in, zero out. -/
theorem c1_forecast_arrays_preserved_witness :
    c8Snapshot.forecast.daily.length = 2 ∧
    c8Snapshot.forecast.hourly.length = 0 := by
  have h := c1_forecast_arrays_preserved c8Current c8Forecast c8Geocode
    c8Snapshot c8Daily ["2024-06-01", "2024-06-02"] c8Hourly []
    rfl rfl rfl rfl rfl
  exact ⟨h.1, h.2.1⟩

/-- Claim C3: a successful merge maps an absent or empty `city` to
`location.name = "Unknown"` and an absent or empty `countryName` to
`location.country = "Unknown"`, each independently of the other field. -/
theorem c3_geocode_fallbacks (cw : CurrentWeatherResp) (fd : ForecastResp)
    (gc : GeocodeResp) (w : WeatherData)
    (hok : mappedWeatherData cw fd gc = Except.ok w) :
    ((gc.city = none ∨ gc.city = some "") → w.location.name = "Unknown") ∧
    ((gc.countryName = none ∨ gc.countryName = some "") →
      w.location.country = "Unknown") := by
  obtain ⟨inner, d, ts, des, hb, hs, hes, sr, ss, _, _, _, _, _, _, _, _, _,
    hw⟩ := (mappedWeatherData_ok_iff cw fd gc w).mp hok
  subst hw
  constructor
  · rintro (h | h) <;> simp [jsOr, h]
  · rintro (h | h) <;> simp [jsOr, h]

/-- Geocode body with `city` absent and `countryName` empty. -/
def c3Geocode : GeocodeResp := { city := none, countryName := some "" }

/-- The snapshot produced when the Berlin weather bodies are merged with
`c3Geocode`. -/
def c3Snapshot : WeatherData :=
  { c8Snapshot with location := { name := "Unknown", country := "Unknown" } }

/-- Witness for C3: with city absent and countryName empty both location
fields fall back to "Unknown". -/
theorem c3_geocode_fallbacks_witness :
    c3Snapshot.location.name = "Unknown" ∧
    c3Snapshot.location.country = "Unknown" := by
  have h := c3_geocode_fallbacks c8Current c8Forecast c3Geocode c3Snapshot rfl
  exact ⟨h.1 (Or.inl rfl), h.2 (Or.inr rfl)⟩

/-- Claim C6: every successful snapshot carries exactly the fixed
placeholders for the fields with no upstream source: humidity, uvIndex and
pressure are 0, every condition string is "Clear", dawn and dusk are "". -/
theorem c6_placeholder_fields (cw : CurrentWeatherResp) (fd : ForecastResp)
    (gc : GeocodeResp) (w : WeatherData)
    (hok : mappedWeatherData cw fd gc = Except.ok w) :
    w.current.humidity = 0 ∧ w.current.uvIndex = 0 ∧
    w.current.pressure = 0 ∧ w.current.condition = "Clear" ∧
    (∀ en ∈ w.forecast.daily, en.condition = "Clear") ∧
    (∀ en ∈ w.forecast.hourly, en.condition = "Clear") ∧
    w.astronomy.dawn = "" ∧ w.astronomy.dusk = "" := by
  obtain ⟨inner, d, ts, des, hb, hs, hes, sr, ss, _, _, _, hmd, _, _, hmh, _,
    _, hw⟩ := (mappedWeatherData_ok_iff cw fd gc w).mp hok
  subst hw
  refine ⟨rfl, rfl, rfl, rfl, ?_, ?_, rfl, rfl⟩
  · exact mapIdxE_ok_mem (fun i a en h => by
      obtain ⟨maxs, mins, _, _, heq⟩ := dailyCallback_ok_elim h
      rw [heq]) hmd
  · exact mapIdxE_ok_mem (fun i a en h => by
      obtain ⟨temps, _, heq⟩ := hourlyCallback_ok_elim h
      rw [heq]) hmh

/-- Witness for C6 on the Berlin scenario. -/
theorem c6_placeholder_fields_witness :
    c8Snapshot.current.humidity = 0 ∧ c8Snapshot.current.uvIndex = 0 ∧
    c8Snapshot.current.pressure = 0 ∧
    c8Snapshot.current.condition = "Clear" ∧
    c8Snapshot.astronomy.dawn = "" ∧ c8Snapshot.astronomy.dusk = "" := by
  have h := c6_placeholder_fields c8Current c8Forecast c8Geocode c8Snapshot rfl
  exact ⟨h.1, h.2.1, h.2.2.1, h.2.2.2.1, h.2.2.2.2.2.2.1, h.2.2.2.2.2.2.2⟩

/-- Claim C7: `astronomy.sunrise` and `astronomy.sunset` of a successful
snapshot come from index 0 of the forecast response's `daily.sunrise` and
`daily.sunset`; the astronomy block does not depend on the current-weather
response at all. -/
theorem c7_astronomy_from_first_daily (cw : CurrentWeatherResp)
    (fd : ForecastResp) (gc : GeocodeResp) (w : WeatherData)
    (d : DailyBlock) (sr ss : List String)
    (hd : fd.daily = some d) (hsr : d.sunrise = some sr)
    (hss : d.sunset = some ss)
    (hok : mappedWeatherData cw fd gc = Except.ok w) :
    w.astronomy.sunrise = sr[0]? ∧ w.astronomy.sunset = ss[0]? ∧
    ∀ cw2 w2, mappedWeatherData cw2 fd gc = Except.ok w2 →
      w2.astronomy = w.astronomy := by
  obtain ⟨inner, d2, ts, des, hb, hs, hes, sr2, ss2, hcw, hd2, ht, hmd, hh,
    hht, hmh, hsr2, hss2, hw⟩ := (mappedWeatherData_ok_iff cw fd gc w).mp hok
  rw [hd] at hd2; injection hd2 with hde; subst hde
  rw [hsr] at hsr2; injection hsr2 with hsre; subst hsre
  rw [hss] at hss2; injection hss2 with hsse; subst hsse
  subst hw
  refine ⟨rfl, rfl, ?_⟩
  intro cw2 w2 hok2
  obtain ⟨inner3, d3, ts3, des3, hb3, hs3, hes3, sr3, ss3, hcw3, hd3, ht3,
    hmd3, hh3, hht3, hmh3, hsr3, hss3, hw3⟩ :=
    (mappedWeatherData_ok_iff cw2 fd gc w2).mp hok2
  subst hw3
  rw [hd] at hd3; injection hd3 with hde3; subst hde3
  rw [hsr] at hsr3; injection hsr3 with hsre3; subst hsre3
  rw [hss] at hss3; injection hss3 with hsse3; subst hsse3
  rfl

/-- Witness for C7 on the Berlin scenario. -/
theorem c7_astronomy_from_first_daily_witness :
    c8Snapshot.astronomy.sunrise = some "2024-06-01T04:45" ∧
    c8Snapshot.astronomy.sunset = some "2024-06-01T21:10" := by
  have h := c7_astronomy_from_first_daily c8Current c8Forecast c8Geocode
    c8Snapshot c8Daily ["2024-06-01T04:45"] ["2024-06-01T21:10"]
    rfl rfl rfl rfl
  exact ⟨h.1, h.2.1⟩

/-- Claim C2: if any of the three HTTP calls returns a non-success status,
the aggregation fails with the single "Failed to fetch weather data" state
and no snapshot is stored — the result slot stays empty. -/
theorem c2_non_success_status_aborts (lat lon : Rat) (env : Env)
    (h : (∃ b, env.currentWeatherCall = Transport.response false b) ∨
         (∃ b, env.forecastCall = Transport.response false b) ∨
         (∃ b, env.geocodeCall = Transport.response false b)) :
    (fetchWeatherData lat lon env).1.weatherData = none ∧
    (fetchWeatherData lat lon env).1.error =
      some "Failed to fetch weather data" := by
  obtain ⟨a, b, g, n, r⟩ := env
  rcases h with ⟨bb, hb⟩ | ⟨bb, hb⟩ | ⟨bb, hb⟩
  · have ha : a = Transport.response false bb := hb
    subst ha
    simp [fetchWeatherData, runFetch, fetchFailState]
  · have hbe : b = Transport.response false bb := hb
    subst hbe
    cases a with
    | netError => simp [fetchWeatherData, runFetch, fetchFailState]
    | response okA bodyA =>
      cases okA <;> simp [fetchWeatherData, runFetch, fetchFailState]
  · have hge : g = Transport.response false bb := hb
    subst hge
    cases a with
    | netError => simp [fetchWeatherData, runFetch, fetchFailState]
    | response okA bodyA =>
      cases okA with
      | false => simp [fetchWeatherData, runFetch, fetchFailState]
      | true =>
        cases b with
        | netError => simp [fetchWeatherData, runFetch, fetchFailState]
        | response okB bodyB =>
          cases okB <;> simp [fetchWeatherData, runFetch, fetchFailState]

/-- Environment in which the geocode call answers with a non-success
status. -/
def c2Env : Env :=
  { currentWeatherCall := Transport.response true c8Current,
    forecastCall := Transport.response true c8Forecast,
    geocodeCall := Transport.response false c8Geocode,
    now := 0, entropy := 0 }

/-- Witness for C2: a failing geocode status empties the result slot and
sets the single failure message. -/
theorem c2_non_success_status_aborts_witness :
    (fetchWeatherData 0 0 c2Env).1.weatherData = none ∧
    (fetchWeatherData 0 0 c2Env).1.error =
      some "Failed to fetch weather data" :=
  c2_non_success_status_aborts 0 0 c2Env (Or.inr (Or.inr ⟨c8Geocode, rfl⟩))

/-- Claim C4: a transport-level failure, a non-success status, or a merge
that trips over a missing or malformed expected field all collapse to the
one failure state "Failed to fetch weather data" with no partial snapshot
surfaced. -/
theorem c4_all_failures_collapse (lat lon : Rat) (env : Env)
    (h : env.currentWeatherCall = Transport.netError ∨
         (∃ b, env.currentWeatherCall = Transport.response false b) ∨
         env.forecastCall = Transport.netError ∨
         (∃ b, env.forecastCall = Transport.response false b) ∨
         env.geocodeCall = Transport.netError ∨
         (∃ b, env.geocodeCall = Transport.response false b) ∨
         (∀ a fb g, env.currentWeatherCall = Transport.response true a →
            env.forecastCall = Transport.response true fb →
            env.geocodeCall = Transport.response true g →
            ∃ e, mappedWeatherData a fb g = Except.error e)) :
    (fetchWeatherData lat lon env).1 = fetchFailState := by
  obtain ⟨a, b, g, n, r⟩ := env
  rcases h with ha | ⟨bb, hb⟩ | hbn | ⟨bb, hb⟩ | hgn | ⟨bb, hb⟩ | hm
  · have ha2 : a = Transport.netError := ha
    subst ha2
    simp [fetchWeatherData, runFetch]
  · have ha2 : a = Transport.response false bb := hb
    subst ha2
    simp [fetchWeatherData, runFetch]
  · have hb2 : b = Transport.netError := hbn
    subst hb2
    cases a with
    | netError => simp [fetchWeatherData, runFetch]
    | response okA bodyA => cases okA <;> simp [fetchWeatherData, runFetch]
  · have hb2 : b = Transport.response false bb := hb
    subst hb2
    cases a with
    | netError => simp [fetchWeatherData, runFetch]
    | response okA bodyA => cases okA <;> simp [fetchWeatherData, runFetch]
  · have hg2 : g = Transport.netError := hgn
    subst hg2
    cases a with
    | netError => simp [fetchWeatherData, runFetch]
    | response okA bodyA =>
      cases okA with
      | false => simp [fetchWeatherData, runFetch]
      | true =>
        cases b with
        | netError => simp [fetchWeatherData, runFetch]
        | response okB bodyB =>
          cases okB <;> simp [fetchWeatherData, runFetch]
  · have hg2 : g = Transport.response false bb := hb
    subst hg2
    cases a with
    | netError => simp [fetchWeatherData, runFetch]
    | response okA bodyA =>
      cases okA with
      | false => simp [fetchWeatherData, runFetch]
      | true =>
        cases b with
        | netError => simp [fetchWeatherData, runFetch]
        | response okB bodyB =>
          cases okB <;> simp [fetchWeatherData, runFetch]
  · cases a with
    | netError => simp [fetchWeatherData, runFetch]
    | response okA bodyA =>
      cases okA with
      | false => simp [fetchWeatherData, runFetch]
      | true =>
        cases b with
        | netError => simp [fetchWeatherData, runFetch]
        | response okB bodyB =>
          cases okB with
          | false => simp [fetchWeatherData, runFetch]
          | true =>
            cases g with
            | netError => simp [fetchWeatherData, runFetch]
            | response okC bodyC =>
              cases okC with
              | false => simp [fetchWeatherData, runFetch]
              | true =>
                obtain ⟨e, he⟩ := hm bodyA bodyB bodyC rfl rfl rfl
                simp [fetchWeatherData, runFetch, he]

/-- Forecast body whose `daily` field is missing entirely: the merge trips
over it. -/
def c4Forecast : ForecastResp :=
  { daily := none, hourly := some c8Hourly }

/-- Environment in which all three calls succeed at HTTP level but the
forecast body is malformed (no `daily`). -/
def c4Env : Env :=
  { currentWeatherCall := Transport.response true c8Current,
    forecastCall := Transport.response true c4Forecast,
    geocodeCall := Transport.response true c8Geocode,
    now := 0, entropy := 0 }

/-- Witness for C4: a malformed forecast body (absent `daily`) collapses
to the single failure state. -/
theorem c4_all_failures_collapse_witness :
    (fetchWeatherData 0 0 c4Env).1 = fetchFailState := by
  apply c4_all_failures_collapse
  right; right; right; right; right; right
  intro a fb g ha hb hg
  have ha2 : Transport.response true c8Current = Transport.response true a := ha
  have hb2 : Transport.response true c4Forecast = Transport.response true fb := hb
  injection ha2 with _ ha3
  injection hb2 with _ hb3
  subst ha3; subst hb3
  exact ⟨"TypeError: daily is undefined", rfl⟩

/-- Claim C10: the lengths of the merged arrays are fixed by the `time`
arrays alone — shorter temperature arrays do not make the aggregation
fail; the entries at out-of-range indices carry the out-of-bounds lookup
result (`undefined`, modelled `none`). -/
theorem c10_short_temperature_arrays (cw : CurrentWeatherResp)
    (fd : ForecastResp) (gc : GeocodeResp) (inner : CurrentWeatherInner)
    (d : DailyBlock) (ts : List String) (maxs mins : List Rat)
    (sr ss : List String) (hb : HourlyBlock) (hs : List String)
    (temps : List Rat)
    (hcw : cw.current_weather = some inner)
    (hd : fd.daily = some d) (ht : d.time = some ts)
    (hmax : d.temperature_2m_max = some maxs)
    (hmin : d.temperature_2m_min = some mins)
    (hsr : d.sunrise = some sr) (hss : d.sunset = some ss)
    (hh : fd.hourly = some hb) (hht : hb.time = some hs)
    (htemp : hb.temperature_2m = some temps) :
    ∃ w, mappedWeatherData cw fd gc = Except.ok w ∧
      w.forecast.daily.length = ts.length ∧
      w.forecast.hourly.length = hs.length ∧
      (∀ i, i < ts.length → maxs.length ≤ i →
        ∃ en, w.forecast.daily[i]? = some en ∧ en.temperatureMax = none) ∧
      (∀ i, i < ts.length → mins.length ≤ i →
        ∃ en, w.forecast.daily[i]? = some en ∧ en.temperatureMin = none) ∧
      (∀ i, i < hs.length → temps.length ≤ i →
        ∃ en, w.forecast.hourly[i]? = some en ∧ en.temperature = none) := by
  have hdc : ∀ i t, dailyCallback d i t = Except.ok
      { date := t, temperatureMax := maxs[i]?, temperatureMin := mins[i]?,
        condition := "Clear" } := by
    intro i t
    simp [dailyCallback, jsIndex, hmax, hmin]
  have hhc : ∀ i t, hourlyCallback hb i t = Except.ok
      { time := t, temperature := temps[i]?, condition := "Clear" } := by
    intro i t
    simp [hourlyCallback, jsIndex, htemp]
  obtain ⟨des, hmd⟩ := mapIdxE_total (fun i t => ⟨_, hdc i t⟩) 0 ts
  obtain ⟨hes, hmh⟩ := mapIdxE_total (fun i t => ⟨_, hhc i t⟩) 0 hs
  refine ⟨_, (mappedWeatherData_ok_iff cw fd gc _).mpr
    ⟨inner, d, ts, des, hb, hs, hes, sr, ss, hcw, hd, ht, hmd, hh, hht, hmh,
     hsr, hss, rfl⟩, mapIdxE_ok_length hmd, mapIdxE_ok_length hmh,
    ?_, ?_, ?_⟩
  · intro i hi hout
    obtain ⟨en, hen, hget⟩ := mapIdxE_ok_getElem hmd i hi
    have h2 := (hdc (0 + i) (ts.get ⟨i, hi⟩)).symm.trans hen
    injection h2 with h3
    refine ⟨en, hget, ?_⟩
    rw [← h3]
    simp [List.getElem?_eq_none hout]
  · intro i hi hout
    obtain ⟨en, hen, hget⟩ := mapIdxE_ok_getElem hmd i hi
    have h2 := (hdc (0 + i) (ts.get ⟨i, hi⟩)).symm.trans hen
    injection h2 with h3
    refine ⟨en, hget, ?_⟩
    rw [← h3]
    simp [List.getElem?_eq_none hout]
  · intro i hi hout
    obtain ⟨en, hen, hget⟩ := mapIdxE_ok_getElem hmh i hi
    have h2 := (hhc (0 + i) (hs.get ⟨i, hi⟩)).symm.trans hen
    injection h2 with h3
    refine ⟨en, hget, ?_⟩
    rw [← h3]
    simp [List.getElem?_eq_none hout]

/-- Daily block whose temperature arrays are shorter than `time`. -/
def c10Daily : DailyBlock :=
  { time := some ["2024-06-01", "2024-06-02"],
    temperature_2m_max := some [20],
    temperature_2m_min := some [],
    sunrise := some [], sunset := some [] }

/-- Hourly block whose temperature array is shorter than `time`. -/
def c10Hourly : HourlyBlock :=
  { time := some ["2024-06-01T00:00"], temperature_2m := some [] }

/-- Forecast body with short temperature arrays. -/
def c10Forecast : ForecastResp :=
  { daily := some c10Daily, hourly := some c10Hourly }

/-- Witness for C10: with `temperature_2m_max` of length 1 against two
days, the merge still succeeds and day 1 carries an undefined maximum. -/
theorem c10_short_temperature_arrays_witness :
    ∃ w, mappedWeatherData c8Current c10Forecast c8Geocode = Except.ok w ∧
      w.forecast.daily.length = 2 ∧
      ∃ en, w.forecast.daily[1]? = some en ∧ en.temperatureMax = none := by
  obtain ⟨w, hok, hdl, _, hmax, _, _⟩ := c10_short_temperature_arrays
    c8Current c10Forecast c8Geocode c8Inner c10Daily
    ["2024-06-01", "2024-06-02"] [20] [] [] [] c10Hourly
    ["2024-06-01T00:00"] []
    rfl rfl rfl rfl rfl rfl rfl rfl rfl rfl
  exact ⟨w, hok, hdl, hmax 1 (by decide) (by decide)⟩

end OpenCloudV2
